import Mathlib

/-!
Shallow embedding of the membership admission and role-authority subsystem of
the clipdeck studio-service: studios, memberships, invites, join requests and
waitlist responses, together with the service operations that mutate them
(`membershipService`, `inviteService`, `waitlistService`, `studioService`) and
the error taxonomy of `lib/errors.ts`.

The persistent store is a record of association lists keyed as in the Prisma
schema ((studioId, userId) unique pairs, row ids).  Each service operation is
a function `DB → Except Err α × DB`: every store call commits on its own, so
an operation that throws after a write returns the partially-updated state,
except where the source wraps writes in `prisma.$transaction`, which is
embedded as all-or-nothing.  A store write that would violate the unique
constraint fails with `Err.uniqueViolation`, which is not a `ServiceError`
and is therefore mapped by `sendError` to a generic 500 response.
-/

namespace StudioService

/-- `StudioRole` enum of the Prisma schema. -/
inductive StudioRole
  | OWNER
  | MODERATOR
  | MEMBER
  deriving DecidableEq, Repr

/-- `StudioJoinType` enum: which admission pathway is legal. -/
inductive JoinType
  | OPEN
  | INVITE_ONLY
  | WAITLIST
  deriving DecidableEq, Repr

/-- Invite lifecycle status. -/
inductive InviteStatus
  | PENDING
  | ACCEPTED
  | REJECTED
  deriving DecidableEq, Repr

/-- `StudioJoinRequestStatus`: shared by join requests and waitlist responses. -/
inductive ReqStatus
  | PENDING
  | APPROVED
  | REJECTED
  deriving DecidableEq, Repr

/-- Studio row (payload fields not consulted by this subsystem are omitted). -/
structure Studio where
  id : Nat
  name : String
  slug : String
  joinType : JoinType
  deriving DecidableEq, Repr

/-- StudioMember row: (studioId, userId) is the unique pair. -/
structure Membership where
  studioId : Nat
  userId : Nat
  role : StudioRole
  deriving DecidableEq, Repr

/-- StudioInvite row: unique on id and on the (studioId, userId) pair. -/
structure Invite where
  id : Nat
  studioId : Nat
  userId : Nat
  status : InviteStatus
  role : StudioRole
  deriving DecidableEq, Repr

/-- StudioJoinRequest row: unique on id and on the (studioId, userId) pair. -/
structure JoinRequest where
  id : Nat
  studioId : Nat
  userId : Nat
  status : ReqStatus
  message : Option String
  deriving DecidableEq, Repr

/-- StudioWaitlistResponse row: unique on id and on the (studioId, userId) pair. -/
structure WaitlistResponse where
  id : Nat
  studioId : Nat
  userId : Nat
  status : ReqStatus
  answers : List (Nat × String)
  deriving DecidableEq, Repr

/-- The transactional store: one association list per table, plus a fresh-id
counter for created rows. -/
structure DB where
  studios : List Studio
  members : List Membership
  invites : List Invite
  joinRequests : List JoinRequest
  responses : List WaitlistResponse
  nextId : Nat
  deriving DecidableEq, Repr

/-- The error taxonomy: the four `ServiceError` constructors of
`lib/errors.ts`, plus the store's unique-constraint violation (a raw Prisma
error, not a `ServiceError`). -/
inductive Err
  | notFound
  | badRequest
  | forbidden
  | conflict
  | uniqueViolation
  deriving DecidableEq, Repr

/-- A transport-level error response: HTTP status and error code string. -/
structure ErrorBody where
  status : Nat
  code : String
  deriving DecidableEq, Repr

/-- The `ServiceError` each typed error constructor of `lib/errors.ts`
carries; a store unique-violation is not a `ServiceError`. -/
def serviceErrorOf : Err → Option ErrorBody
  | .notFound => some ⟨404, "NOT_FOUND"⟩
  | .badRequest => some ⟨400, "BAD_REQUEST"⟩
  | .forbidden => some ⟨403, "FORBIDDEN"⟩
  | .conflict => some ⟨409, "CONFLICT"⟩
  | .uniqueViolation => none

/-- `sendError` of `lib/errors.ts`: a `ServiceError` is sent with its own
status and code; any other error becomes a 500 INTERNAL_ERROR. -/
def sendError (e : Err) : ErrorBody :=
  match serviceErrorOf e with
  | some body => body
  | none => ⟨500, "INTERNAL_ERROR"⟩

/-! ## Store primitives -/

/-- `prisma.studio.findUnique({ where: { id } })`. -/
def DB.findStudio (db : DB) (studioId : Nat) : Option Studio :=
  db.studios.find? (fun s => s.id == studioId)

/-- `prisma.studio.findUnique({ where: { slug } })`. -/
def DB.findStudioBySlug (db : DB) (slug : String) : Option Studio :=
  db.studios.find? (fun s => s.slug == slug)

/-- `prisma.studioMember.findUnique({ where: { studioId_userId } })`. -/
def DB.findMember (db : DB) (studioId userId : Nat) : Option Membership :=
  db.members.find? (fun m => m.studioId == studioId && m.userId == userId)

/-- `prisma.studioMember.create`: fails with the unique-constraint violation
when a row for the (studioId, userId) pair already exists. -/
def DB.createMember (db : DB) (studioId userId : Nat) (role : StudioRole) :
    Except Err (Membership × DB) :=
  match db.findMember studioId userId with
  | some _ => .error .uniqueViolation
  | none =>
    let m : Membership := ⟨studioId, userId, role⟩
    .ok (m, { db with members := db.members ++ [m] })

/-- `prisma.studioMember.delete({ where: { studioId_userId } })`. -/
def DB.deleteMember (db : DB) (studioId userId : Nat) : DB :=
  { db with
    members := db.members.filter (fun m => !(m.studioId == studioId && m.userId == userId)) }

/-- `prisma.studioMember.update({ where: { studioId_userId }, data: { role } })`. -/
def DB.setMemberRole (db : DB) (studioId userId : Nat) (role : StudioRole) : DB :=
  { db with
    members := db.members.map (fun m =>
      if m.studioId == studioId && m.userId == userId then { m with role := role } else m) }

/-- `prisma.studioInvite.findUnique({ where: { studioId_userId } })`. -/
def DB.findInvite (db : DB) (studioId userId : Nat) : Option Invite :=
  db.invites.find? (fun i => i.studioId == studioId && i.userId == userId)

/-- `prisma.studioInvite.findUnique({ where: { id } })`. -/
def DB.findInviteById (db : DB) (inviteId : Nat) : Option Invite :=
  db.invites.find? (fun i => i.id == inviteId)

/-- `prisma.studioInvite.create`: unique on the (studioId, userId) pair. -/
def DB.createInvite (db : DB) (studioId userId : Nat) (role : StudioRole) :
    Except Err (Invite × DB) :=
  match db.findInvite studioId userId with
  | some _ => .error .uniqueViolation
  | none =>
    let inv : Invite := ⟨db.nextId, studioId, userId, .PENDING, role⟩
    .ok (inv, { db with invites := db.invites ++ [inv], nextId := db.nextId + 1 })

/-- `prisma.studioInvite.update({ where: { id } })` with the given row. -/
def DB.replaceInvite (db : DB) (inv : Invite) : DB :=
  { db with invites := db.invites.map (fun i => if i.id == inv.id then inv else i) }

/-- `prisma.studioJoinRequest.findUnique({ where: { studioId_userId } })`. -/
def DB.findJoinRequest (db : DB) (studioId userId : Nat) : Option JoinRequest :=
  db.joinRequests.find? (fun r => r.studioId == studioId && r.userId == userId)

/-- `prisma.studioJoinRequest.findUnique({ where: { id } })`. -/
def DB.findJoinRequestById (db : DB) (requestId : Nat) : Option JoinRequest :=
  db.joinRequests.find? (fun r => r.id == requestId)

/-- `prisma.studioJoinRequest.create`: unique on the (studioId, userId) pair. -/
def DB.createJoinRequest (db : DB) (studioId userId : Nat) (message : Option String) :
    Except Err (JoinRequest × DB) :=
  match db.findJoinRequest studioId userId with
  | some _ => .error .uniqueViolation
  | none =>
    let r : JoinRequest := ⟨db.nextId, studioId, userId, .PENDING, message⟩
    .ok (r, { db with joinRequests := db.joinRequests ++ [r], nextId := db.nextId + 1 })

/-- `prisma.studioJoinRequest.update({ where: { id } })` with the given row. -/
def DB.replaceJoinRequest (db : DB) (r : JoinRequest) : DB :=
  { db with joinRequests := db.joinRequests.map (fun x => if x.id == r.id then r else x) }

/-- `prisma.studioWaitlistResponse.findUnique({ where: { studioId_userId } })`. -/
def DB.findResponse (db : DB) (studioId userId : Nat) : Option WaitlistResponse :=
  db.responses.find? (fun r => r.studioId == studioId && r.userId == userId)

/-- `prisma.studioWaitlistResponse.findUnique({ where: { id } })`. -/
def DB.findResponseById (db : DB) (responseId : Nat) : Option WaitlistResponse :=
  db.responses.find? (fun r => r.id == responseId)

/-- `prisma.studioWaitlistResponse.create`: unique on the (studioId, userId) pair. -/
def DB.createResponse (db : DB) (studioId userId : Nat) (answers : List (Nat × String)) :
    Except Err (WaitlistResponse × DB) :=
  match db.findResponse studioId userId with
  | some _ => .error .uniqueViolation
  | none =>
    let r : WaitlistResponse := ⟨db.nextId, studioId, userId, .PENDING, answers⟩
    .ok (r, { db with responses := db.responses ++ [r], nextId := db.nextId + 1 })

/-- `prisma.studioWaitlistResponse.update({ where: ... })` with the given row. -/
def DB.replaceResponse (db : DB) (r : WaitlistResponse) : DB :=
  { db with responses := db.responses.map (fun x => if x.id == r.id then r else x) }

/-! ## Service operations -/

/-- `getMemberRole` of membershipService: a user's role in a studio, or none. -/
def getMemberRole (db : DB) (studioId userId : Nat) : Option StudioRole :=
  (db.findMember studioId userId).map Membership.role

/-- Result of `requestToJoin`: `{ joined: true, member }` or
`{ joined: false, request }`. -/
inductive JoinOutcome
  | joined (member : Membership)
  | requested (request : JoinRequest)
  deriving DecidableEq, Repr

/-- `requestToJoin` of membershipService: branch on the studio's joinType. -/
def requestToJoin (db : DB) (studioId userId : Nat) (message : Option String) :
    Except Err JoinOutcome × DB :=
  match db.findStudio studioId with
  | none => (.error .notFound, db)
  | some studio =>
    match db.findMember studioId userId with
    | some _ => (.error .conflict, db)
    | none =>
      if studio.joinType = .INVITE_ONLY then (.error .forbidden, db)
      else if studio.joinType = .OPEN then
        match db.createMember studioId userId .MEMBER with
        | .error e => (.error e, db)
        | .ok (m, db') => (.ok (.joined m), db')
      else
        -- WAITLIST: create a join request
        match db.findJoinRequest studioId userId with
        | some existingRequest =>
          if existingRequest.status = .PENDING then (.error .conflict, db)
          else if existingRequest.status = .REJECTED then
            -- allow re-requesting after rejection
            let updated : JoinRequest :=
              { existingRequest with
                status := .PENDING
                -- `data: { message }` with message undefined leaves the field as is
                message := match message with
                  | some m => some m
                  | none => existingRequest.message }
            (.ok (.requested updated), db.replaceJoinRequest updated)
          else
            -- an APPROVED row falls through to the create below
            match db.createJoinRequest studioId userId message with
            | .error e => (.error e, db)
            | .ok (r, db') => (.ok (.requested r), db')
        | none =>
          match db.createJoinRequest studioId userId message with
          | .error e => (.error e, db)
          | .ok (r, db') => (.ok (.requested r), db')

/-- `approveRequest` of membershipService: mark APPROVED and add the member,
inside `prisma.$transaction` (all-or-nothing). -/
def approveRequest (db : DB) (studioId requestId approverId : Nat) :
    Except Err (JoinRequest × Membership) × DB :=
  let approverRole := getMemberRole db studioId approverId
  if !(approverRole == some .OWNER || approverRole == some .MODERATOR) then
    (.error .forbidden, db)
  else
    match db.findJoinRequestById requestId with
    | none => (.error .notFound, db)
    | some joinRequest =>
      if joinRequest.studioId ≠ studioId then (.error .badRequest, db)
      else if joinRequest.status ≠ .PENDING then (.error .conflict, db)
      else
        let updatedRequest : JoinRequest := { joinRequest with status := .APPROVED }
        let db1 := db.replaceJoinRequest updatedRequest
        match db1.createMember studioId joinRequest.userId .MEMBER with
        | .error e => (.error e, db)  -- transaction rolls back
        | .ok (member, db2) => (.ok (updatedRequest, member), db2)

/-- `rejectRequest` of membershipService. -/
def rejectRequest (db : DB) (studioId requestId approverId : Nat) :
    Except Err JoinRequest × DB :=
  let approverRole := getMemberRole db studioId approverId
  if !(approverRole == some .OWNER || approverRole == some .MODERATOR) then
    (.error .forbidden, db)
  else
    match db.findJoinRequestById requestId with
    | none => (.error .notFound, db)
    | some joinRequest =>
      if joinRequest.studioId ≠ studioId then (.error .badRequest, db)
      else if joinRequest.status ≠ .PENDING then (.error .conflict, db)
      else
        let updated : JoinRequest := { joinRequest with status := .REJECTED }
        (.ok updated, db.replaceJoinRequest updated)

/-- `removeMember` of membershipService (OWNER/MODERATOR only). -/
def removeMember (db : DB) (studioId userId removerId : Nat) :
    Except Err Unit × DB :=
  let removerRole := getMemberRole db studioId removerId
  if !(removerRole == some .OWNER || removerRole == some .MODERATOR) then
    (.error .forbidden, db)
  else
    match db.findMember studioId userId with
    | none => (.error .notFound, db)
    | some member =>
      -- moderators cannot remove owners or other moderators
      if removerRole == some .MODERATOR &&
          (member.role == .OWNER || member.role == .MODERATOR) then
        (.error .forbidden, db)
      -- owners cannot remove themselves
      else if member.role == .OWNER && userId == removerId then
        (.error .badRequest, db)
      else
        (.ok (), db.deleteMember studioId userId)

/-- `updateMemberRole` of membershipService (OWNER only). -/
def updateMemberRole (db : DB) (studioId userId : Nat) (role : StudioRole)
    (updaterId : Nat) : Except Err Membership × DB :=
  let updaterRole := getMemberRole db studioId updaterId
  if updaterRole ≠ some .OWNER then (.error .forbidden, db)
  else
    match db.findMember studioId userId with
    | none => (.error .notFound, db)
    | some member =>
      -- cannot change own role
      if userId = updaterId then (.error .badRequest, db)
      -- cannot promote to OWNER
      else if role = .OWNER then (.error .badRequest, db)
      else
        (.ok { member with role := role }, db.setMemberRole studioId userId role)

/-- `leaveStudio` of membershipService (OWNER may not leave). -/
def leaveStudio (db : DB) (studioId userId : Nat) : Except Err Unit × DB :=
  match db.findMember studioId userId with
  | none => (.error .notFound, db)
  | some member =>
    if member.role = .OWNER then (.error .badRequest, db)
    else (.ok (), db.deleteMember studioId userId)

/-- `inviteUser` of inviteService. -/
def inviteUser (db : DB) (studioId inviterId userId : Nat)
    (role : Option StudioRole) : Except Err Invite × DB :=
  let inviterRole := getMemberRole db studioId inviterId
  if !(inviterRole == some .OWNER || inviterRole == some .MODERATOR) then
    (.error .forbidden, db)
  else
    -- cannot invite to OWNER role
    let inviteRole := role.getD .MEMBER
    if inviteRole = .OWNER then (.error .badRequest, db)
    -- moderators can only invite as MEMBER
    else if inviterRole == some .MODERATOR && inviteRole == .MODERATOR then
      (.error .forbidden, db)
    else
      match db.findMember studioId userId with
      | some _ => (.error .conflict, db)
      | none =>
        match db.findInvite studioId userId with
        | some existingInvite =>
          if existingInvite.status = .PENDING then (.error .conflict, db)
          else
            -- update the existing (non-PENDING) invite
            let updated : Invite :=
              { existingInvite with status := .PENDING, role := inviteRole }
            (.ok updated, db.replaceInvite updated)
        | none =>
          match db.createInvite studioId userId inviteRole with
          | .error e => (.error e, db)
          | .ok (inv, db') => (.ok inv, db')

/-- `respondToInvite` of inviteService: accept or reject a pending invite. -/
def respondToInvite (db : DB) (inviteId userId : Nat) (accept : Bool) :
    Except Err (Invite × Option Membership) × DB :=
  match db.findInviteById inviteId with
  | none => (.error .notFound, db)
  | some invite =>
    if invite.userId ≠ userId then (.error .forbidden, db)
    else if invite.status ≠ .PENDING then (.error .conflict, db)
    else if accept then
      match db.findMember invite.studioId userId with
      | some _ =>
        -- already a member: just mark the invite ACCEPTED, then fail Conflict
        let db' := db.replaceInvite { invite with status := .ACCEPTED }
        (.error .conflict, db')
      | none =>
        -- accept: update invite and add as member in `prisma.$transaction`
        let updatedInvite : Invite := { invite with status := .ACCEPTED }
        let db1 := db.replaceInvite updatedInvite
        match db1.createMember invite.studioId userId invite.role with
        | .error e => (.error e, db)  -- transaction rolls back
        | .ok (member, db2) => (.ok (updatedInvite, some member), db2)
    else
      let updatedInvite : Invite := { invite with status := .REJECTED }
      (.ok (updatedInvite, none), db.replaceInvite updatedInvite)

/-- `submitResponse` of waitlistService: apply with answers. -/
def submitResponse (db : DB) (studioId userId : Nat)
    (answers : List (Nat × String)) : Except Err WaitlistResponse × DB :=
  match db.findStudio studioId with
  | none => (.error .notFound, db)
  | some studio =>
    if studio.joinType ≠ .WAITLIST then (.error .badRequest, db)
    else
      match db.findMember studioId userId with
      | some _ => (.error .conflict, db)
      | none =>
        match db.findResponse studioId userId with
        | some existing =>
          if existing.status = .PENDING then (.error .conflict, db)
          else
            -- update the existing (non-PENDING) response
            let updated : WaitlistResponse :=
              { existing with answers := answers, status := .PENDING }
            (.ok updated, db.replaceResponse updated)
        | none =>
          match db.createResponse studioId userId answers with
          | .error e => (.error e, db)
          | .ok (r, db') => (.ok r, db')

/-- The `status` parameter of `reviewResponse`: 'APPROVED' | 'REJECTED'. -/
inductive ReviewStatus
  | APPROVED
  | REJECTED
  deriving DecidableEq, Repr

/-- The `StudioJoinRequestStatus` value a review decision writes. -/
def ReviewStatus.toReqStatus : ReviewStatus → ReqStatus
  | .APPROVED => .APPROVED
  | .REJECTED => .REJECTED

/-- `reviewResponse` of waitlistService: the status update and the member
creation are two separate store calls, not one transaction. -/
def reviewResponse (db : DB) (responseId userId : Nat) (status : ReviewStatus) :
    Except Err WaitlistResponse × DB :=
  match db.findResponseById responseId with
  | none => (.error .notFound, db)
  | some response =>
    let role := getMemberRole db response.studioId userId
    if !(role == some .OWNER || role == some .MODERATOR) then (.error .forbidden, db)
    else if response.status ≠ .PENDING then (.error .conflict, db)
    else
      let updated : WaitlistResponse := { response with status := status.toReqStatus }
      let db1 := db.replaceResponse updated
      -- if approved, add as member (a second, separate store call)
      if status = .APPROVED then
        match db1.createMember response.studioId response.userId .MEMBER with
        | .error e => (.error e, db1)  -- the status update above is already committed
        | .ok (_, db2) => (.ok updated, db2)
      else (.ok updated, db1)

/-- `createStudio` of studioService: the studio row and the creator's OWNER
membership are two separate store calls, not one transaction. -/
def createStudio (db : DB) (ownerId : Nat) (name slug : String)
    (joinType : Option JoinType) : Except Err Studio × DB :=
  match db.findStudioBySlug slug with
  | some _ => (.error .conflict, db)
  | none =>
    let studio : Studio := ⟨db.nextId, name, slug, joinType.getD .WAITLIST⟩
    let db1 : DB := { db with studios := db.studios ++ [studio], nextId := db.nextId + 1 }
    match db1.createMember studio.id ownerId .OWNER with
    | .error e => (.error e, db1)  -- the studio row above is already committed
    | .ok (_, db2) => (.ok studio, db2)

/-! ## The membership uniqueness invariant -/

/-- The store's unique constraint on StudioMember: no two rows share the
(studioId, userId) pair. -/
def MembersUnique (db : DB) : Prop :=
  db.members.Pairwise (fun a b => ¬(a.studioId = b.studioId ∧ a.userId = b.userId))

theorem membersUnique_createMember {db : DB} {s u : Nat} {r : StudioRole}
    {m : Membership} {db' : DB} (hu : MembersUnique db)
    (h : db.createMember s u r = .ok (m, db')) : MembersUnique db' := by
  unfold DB.createMember at h
  cases hf : db.findMember s u with
  | some x => rw [hf] at h; exact absurd h (by simp)
  | none =>
    rw [hf] at h
    simp only [Except.ok.injEq, Prod.mk.injEq] at h
    obtain ⟨-, hdb⟩ := h
    subst hdb
    show (db.members ++ [(⟨s, u, r⟩ : Membership)]).Pairwise _
    rw [List.pairwise_append]
    refine ⟨hu, List.pairwise_singleton _ _, ?_⟩
    intro a ha b hb
    simp only [List.mem_singleton] at hb
    subst hb
    have hfa := List.find?_eq_none.mp hf a ha
    simp only [Bool.and_eq_true, beq_iff_eq] at hfa
    simpa using hfa

theorem membersUnique_deleteMember {db : DB} (s u : Nat) (hu : MembersUnique db) :
    MembersUnique (db.deleteMember s u) := by
  exact List.Pairwise.filter _ hu

theorem membersUnique_setMemberRole {db : DB} (s u : Nat) (r : StudioRole)
    (hu : MembersUnique db) : MembersUnique (db.setMemberRole s u r) := by
  show (db.members.map _).Pairwise _
  rw [List.pairwise_map]
  refine hu.imp ?_
  intro a b hab hk
  apply hab
  constructor
  · have := hk.1
    split at this <;> split at this <;> simpa using this
  · have := hk.2
    split at this <;> split at this <;> simpa using this

theorem createJoinRequest_members {db : DB} {s u : Nat} {msg : Option String}
    {r : JoinRequest} {db' : DB} (h : db.createJoinRequest s u msg = .ok (r, db')) :
    db'.members = db.members := by
  unfold DB.createJoinRequest at h
  cases hf : db.findJoinRequest s u with
  | some x => rw [hf] at h; exact absurd h (by simp)
  | none =>
    rw [hf] at h
    simp only [Except.ok.injEq, Prod.mk.injEq] at h
    obtain ⟨-, hdb⟩ := h
    subst hdb
    rfl

theorem createInvite_members {db : DB} {s u : Nat} {r : StudioRole}
    {inv : Invite} {db' : DB} (h : db.createInvite s u r = .ok (inv, db')) :
    db'.members = db.members := by
  unfold DB.createInvite at h
  cases hf : db.findInvite s u with
  | some x => rw [hf] at h; exact absurd h (by simp)
  | none =>
    rw [hf] at h
    simp only [Except.ok.injEq, Prod.mk.injEq] at h
    obtain ⟨-, hdb⟩ := h
    subst hdb
    rfl

theorem createResponse_members {db : DB} {s u : Nat} {ans : List (Nat × String)}
    {r : WaitlistResponse} {db' : DB} (h : db.createResponse s u ans = .ok (r, db')) :
    db'.members = db.members := by
  unfold DB.createResponse at h
  cases hf : db.findResponse s u with
  | some x => rw [hf] at h; exact absurd h (by simp)
  | none =>
    rw [hf] at h
    simp only [Except.ok.injEq, Prod.mk.injEq] at h
    obtain ⟨-, hdb⟩ := h
    subst hdb
    rfl

theorem membersUnique_of_members_eq {db db' : DB} (h : db'.members = db.members)
    (hu : MembersUnique db) : MembersUnique db' := by
  unfold MembersUnique
  rw [h]
  exact hu

theorem membersUnique_requestToJoin (db : DB) (s u : Nat) (msg : Option String)
    (hu : MembersUnique db) : MembersUnique (requestToJoin db s u msg).2 := by
  unfold requestToJoin
  dsimp only
  split
  · exact hu
  split
  · exact hu
  split
  · exact hu
  split
  · split
    · exact hu
    · exact membersUnique_createMember hu (by assumption)
  split
  · split
    · exact hu
    split
    · exact hu
    · split
      · exact hu
      · exact membersUnique_of_members_eq (createJoinRequest_members (by assumption)) hu
  · split
    · exact hu
    · exact membersUnique_of_members_eq (createJoinRequest_members (by assumption)) hu

theorem membersUnique_approveRequest (db : DB) (s rid aid : Nat)
    (hu : MembersUnique db) : MembersUnique (approveRequest db s rid aid).2 := by
  unfold approveRequest
  dsimp only
  split
  · exact hu
  split
  · exact hu
  split
  · exact hu
  split
  · exact hu
  split
  · exact hu
  · rename_i m db2 heq
    refine membersUnique_createMember ?_ heq
    exact hu

theorem membersUnique_rejectRequest (db : DB) (s rid aid : Nat)
    (hu : MembersUnique db) : MembersUnique (rejectRequest db s rid aid).2 := by
  unfold rejectRequest
  dsimp only
  split
  · exact hu
  split
  · exact hu
  split
  · exact hu
  split
  · exact hu
  · exact hu

theorem membersUnique_removeMember (db : DB) (s u rid : Nat)
    (hu : MembersUnique db) : MembersUnique (removeMember db s u rid).2 := by
  unfold removeMember
  dsimp only
  split
  · exact hu
  split
  · exact hu
  split
  · exact hu
  split
  · exact hu
  · exact membersUnique_deleteMember s u hu

theorem membersUnique_updateMemberRole (db : DB) (s u : Nat) (r : StudioRole)
    (uid : Nat) (hu : MembersUnique db) :
    MembersUnique (updateMemberRole db s u r uid).2 := by
  unfold updateMemberRole
  dsimp only
  split
  · exact hu
  split
  · exact hu
  split
  · exact hu
  split
  · exact hu
  · exact membersUnique_setMemberRole s u r hu

theorem membersUnique_leaveStudio (db : DB) (s u : Nat)
    (hu : MembersUnique db) : MembersUnique (leaveStudio db s u).2 := by
  unfold leaveStudio
  split
  · exact hu
  split
  · exact hu
  · exact membersUnique_deleteMember s u hu

theorem membersUnique_inviteUser (db : DB) (s iid u : Nat) (r : Option StudioRole)
    (hu : MembersUnique db) : MembersUnique (inviteUser db s iid u r).2 := by
  unfold inviteUser
  dsimp only
  split
  · exact hu
  split
  · exact hu
  split
  · exact hu
  split
  · exact hu
  split
  · split
    · exact hu
    · exact hu
  · split
    · exact hu
    · exact membersUnique_of_members_eq (createInvite_members (by assumption)) hu

theorem membersUnique_respondToInvite (db : DB) (iid u : Nat) (accept : Bool)
    (hu : MembersUnique db) : MembersUnique (respondToInvite db iid u accept).2 := by
  unfold respondToInvite
  dsimp only
  split
  · exact hu
  split
  · exact hu
  split
  · exact hu
  split
  · split
    · exact hu
    · split
      · exact hu
      · rename_i m db2 heq
        refine membersUnique_createMember ?_ heq
        exact hu
  · exact hu

theorem membersUnique_submitResponse (db : DB) (s u : Nat)
    (ans : List (Nat × String)) (hu : MembersUnique db) :
    MembersUnique (submitResponse db s u ans).2 := by
  unfold submitResponse
  dsimp only
  split
  · exact hu
  split
  · exact hu
  split
  · exact hu
  split
  · split
    · exact hu
    · exact hu
  · split
    · exact hu
    · exact membersUnique_of_members_eq (createResponse_members (by assumption)) hu

theorem membersUnique_reviewResponse (db : DB) (rid uid : Nat)
    (status : ReviewStatus) (hu : MembersUnique db) :
    MembersUnique (reviewResponse db rid uid status).2 := by
  unfold reviewResponse
  dsimp only
  split
  · exact hu
  split
  · exact hu
  split
  · exact hu
  split
  · split
    · exact hu
    · rename_i m db2 heq
      refine membersUnique_createMember ?_ heq
      exact hu
  · exact hu

theorem membersUnique_createStudio (db : DB) (oid : Nat) (name slug : String)
    (jt : Option JoinType) (hu : MembersUnique db) :
    MembersUnique (createStudio db oid name slug jt).2 := by
  unfold createStudio
  dsimp only
  split
  · exact hu
  split
  · exact hu
  · rename_i m db2 heq
    refine membersUnique_createMember ?_ heq
    exact hu

/-- One service-operation step of the subsystem: the state moves to the
post-state of some operation call (successful or failed). -/
inductive Step : DB → DB → Prop
  | requestToJoin (db : DB) (studioId userId : Nat) (message : Option String) :
      Step db (requestToJoin db studioId userId message).2
  | approveRequest (db : DB) (studioId requestId approverId : Nat) :
      Step db (approveRequest db studioId requestId approverId).2
  | rejectRequest (db : DB) (studioId requestId approverId : Nat) :
      Step db (rejectRequest db studioId requestId approverId).2
  | removeMember (db : DB) (studioId userId removerId : Nat) :
      Step db (removeMember db studioId userId removerId).2
  | updateMemberRole (db : DB) (studioId userId : Nat) (role : StudioRole) (updaterId : Nat) :
      Step db (updateMemberRole db studioId userId role updaterId).2
  | leaveStudio (db : DB) (studioId userId : Nat) :
      Step db (leaveStudio db studioId userId).2
  | inviteUser (db : DB) (studioId inviterId userId : Nat) (role : Option StudioRole) :
      Step db (inviteUser db studioId inviterId userId role).2
  | respondToInvite (db : DB) (inviteId userId : Nat) (accept : Bool) :
      Step db (respondToInvite db inviteId userId accept).2
  | submitResponse (db : DB) (studioId userId : Nat) (answers : List (Nat × String)) :
      Step db (submitResponse db studioId userId answers).2
  | reviewResponse (db : DB) (responseId userId : Nat) (status : ReviewStatus) :
      Step db (reviewResponse db responseId userId status).2
  | createStudio (db : DB) (ownerId : Nat) (name slug : String) (joinType : Option JoinType) :
      Step db (createStudio db ownerId name slug joinType).2

/-- The empty store. -/
def DB.empty : DB := ⟨[], [], [], [], [], 0⟩

/-- States reachable from the empty store by service operations. -/
inductive Reachable : DB → Prop
  | empty : Reachable DB.empty
  | step {db db' : DB} : Reachable db → Step db db' → Reachable db'

theorem membersUnique_step {db db' : DB} (h : Step db db') (hu : MembersUnique db) :
    MembersUnique db' := by
  cases h with
  | requestToJoin s u msg => exact membersUnique_requestToJoin db s u msg hu
  | approveRequest s rid aid => exact membersUnique_approveRequest db s rid aid hu
  | rejectRequest s rid aid => exact membersUnique_rejectRequest db s rid aid hu
  | removeMember s u rid => exact membersUnique_removeMember db s u rid hu
  | updateMemberRole s u r uid => exact membersUnique_updateMemberRole db s u r uid hu
  | leaveStudio s u => exact membersUnique_leaveStudio db s u hu
  | inviteUser s iid u r => exact membersUnique_inviteUser db s iid u r hu
  | respondToInvite iid u acc => exact membersUnique_respondToInvite db iid u acc hu
  | submitResponse s u ans => exact membersUnique_submitResponse db s u ans hu
  | reviewResponse rid uid st => exact membersUnique_reviewResponse db rid uid st hu
  | createStudio oid n sl jt => exact membersUnique_createStudio db oid n sl jt hu

/-- C1: in every reachable state, at most one Membership record exists for
every (studioId, userId) pair — every membership-creating operation either
first checks that no Membership exists and fails with Conflict, or is stopped
by the store's uniqueness constraint, so no reachable state holds two
membership records for the same pair. -/
theorem membership_pair_unique {db : DB} (h : Reachable db) : MembersUnique db := by
  induction h with
  | empty => exact List.Pairwise.nil
  | step _ hs ih => exact membersUnique_step hs ih

/-- Witness for C1 at a concrete reachable state: create a studio, then an
open-join; the resulting store satisfies the uniqueness invariant. -/
theorem membership_pair_unique_witness :
    MembersUnique (requestToJoin (createStudio DB.empty 1 "s" "s" (some .OPEN)).2 0 2 none).2 :=
  membership_pair_unique
    (Reachable.step
      (Reachable.step Reachable.empty (Step.createStudio DB.empty 1 "s" "s" (some .OPEN)))
      (Step.requestToJoin _ 0 2 none))

/-! ## Helper equations -/

theorem replaceInvite_findMember (db : DB) (i : Invite) (s u : Nat) :
    (db.replaceInvite i).findMember s u = db.findMember s u := rfl

/-- C2: respondToInvite fails NotFound when the invite is absent, Forbidden
when the invite's userId differs from the caller, Conflict when its status is
not PENDING; and on accept by a non-member it marks the invite ACCEPTED and
creates a Membership with the invite's stored role in one transaction. -/
theorem respondToInvite_contract (db : DB) (inviteId userId : Nat) (accept : Bool) :
    (db.findInviteById inviteId = none →
      respondToInvite db inviteId userId accept = (.error .notFound, db)) ∧
    (∀ inv, db.findInviteById inviteId = some inv → inv.userId ≠ userId →
      respondToInvite db inviteId userId accept = (.error .forbidden, db)) ∧
    (∀ inv, db.findInviteById inviteId = some inv → inv.userId = userId →
      inv.status ≠ .PENDING →
      respondToInvite db inviteId userId accept = (.error .conflict, db)) ∧
    (∀ inv, db.findInviteById inviteId = some inv → inv.userId = userId →
      inv.status = .PENDING → accept = true →
      db.findMember inv.studioId userId = none →
      ∃ member db',
        respondToInvite db inviteId userId accept =
          (.ok ({ inv with status := .ACCEPTED }, some member), db') ∧
        member.studioId = inv.studioId ∧ member.userId = userId ∧
        member.role = inv.role ∧
        db'.members = db.members ++ [member] ∧
        db'.invites = db.invites.map (fun i =>
          if i.id == inv.id then { inv with status := .ACCEPTED } else i)) := by
  refine ⟨?_, ?_, ?_, ?_⟩
  · intro h
    unfold respondToInvite
    rw [h]
  · intro inv h hne
    unfold respondToInvite
    rw [h]
    simp [hne]
  · intro inv h he hst
    unfold respondToInvite
    rw [h]
    simp [he, hst]
  · intro inv h he hst hacc hmem
    subst he hacc
    unfold respondToInvite
    rw [h]
    dsimp only
    simp only [hst, ne_eq, not_true_eq_false, if_false, ite_true, ite_false,
      not_false_eq_true, if_true, hmem]
    simp only [DB.createMember, replaceInvite_findMember, hmem]
    exact ⟨⟨inv.studioId, inv.userId, inv.role⟩, _, rfl, rfl, rfl, rfl, rfl, rfl⟩

/-- A WAITLIST studio with a stale APPROVED join request for user 2, who is
no longer a member (the request was approved and the member later left). -/
def dbStaleRequest : DB :=
  { studios := [⟨0, "s", "s", .WAITLIST⟩]
    members := [⟨0, 1, .OWNER⟩]
    invites := []
    joinRequests := [⟨5, 0, 2, .APPROVED, none⟩]
    responses := []
    nextId := 6 }

/-- C4 counterexample: at a WAITLIST studio where a stale APPROVED join
request exists for the non-member user 2, requestToJoin neither creates a
JoinRequest nor fails Conflict: the fall-through create hits the store's
uniqueness constraint and the operation fails with the raw store error,
leaving the store unchanged. -/
theorem requestToJoin_claim_fails_on_stale_approved :
    (requestToJoin dbStaleRequest 0 2 (some "again")).1 = .error .uniqueViolation ∧
    Err.uniqueViolation ≠ Err.conflict ∧
    (requestToJoin dbStaleRequest 0 2 (some "again")).2 = dbStaleRequest :=
  ⟨rfl, by decide, rfl⟩

/-- C4 (amended): requestToJoin branches exactly on joinType — OPEN creates a
MEMBER membership directly, INVITE_ONLY fails Forbidden, WAITLIST creates a
JoinRequest, failing Conflict when the user is already a member or a PENDING
request exists, resetting a REJECTED request to PENDING with the new message;
but when a stale APPROVED request row exists for a non-member, the
fall-through create violates the store's uniqueness constraint and the call
fails with the raw store error instead. -/
theorem requestToJoin_contract (db : DB) (s u : Nat) (msg : Option String) :
    (db.findStudio s = none → requestToJoin db s u msg = (.error .notFound, db)) ∧
    (∀ studio, db.findStudio s = some studio → ∀ m, db.findMember s u = some m →
      requestToJoin db s u msg = (.error .conflict, db)) ∧
    (∀ studio, db.findStudio s = some studio → db.findMember s u = none →
      studio.joinType = .INVITE_ONLY →
      requestToJoin db s u msg = (.error .forbidden, db)) ∧
    (∀ studio, db.findStudio s = some studio → db.findMember s u = none →
      studio.joinType = .OPEN →
      requestToJoin db s u msg =
        (.ok (.joined ⟨s, u, .MEMBER⟩),
         { db with members := db.members ++ [⟨s, u, .MEMBER⟩] })) ∧
    (∀ studio, db.findStudio s = some studio → db.findMember s u = none →
      studio.joinType = .WAITLIST → ∀ r, db.findJoinRequest s u = some r →
      r.status = .PENDING → requestToJoin db s u msg = (.error .conflict, db)) ∧
    (∀ studio, db.findStudio s = some studio → db.findMember s u = none →
      studio.joinType = .WAITLIST → ∀ r, db.findJoinRequest s u = some r →
      r.status = .REJECTED →
      requestToJoin db s u msg =
        (.ok (.requested
            { r with
              status := .PENDING
              message := match msg with | some m => some m | none => r.message }),
         db.replaceJoinRequest
            { r with
              status := .PENDING
              message := match msg with | some m => some m | none => r.message })) ∧
    (∀ studio, db.findStudio s = some studio → db.findMember s u = none →
      studio.joinType = .WAITLIST → ∀ r, db.findJoinRequest s u = some r →
      r.status = .APPROVED →
      requestToJoin db s u msg = (.error .uniqueViolation, db)) ∧
    (∀ studio, db.findStudio s = some studio → db.findMember s u = none →
      studio.joinType = .WAITLIST → db.findJoinRequest s u = none →
      requestToJoin db s u msg =
        (.ok (.requested ⟨db.nextId, s, u, .PENDING, msg⟩),
         { db with joinRequests := db.joinRequests ++ [⟨db.nextId, s, u, .PENDING, msg⟩],
                   nextId := db.nextId + 1 })) := by
  refine ⟨?_, ?_, ?_, ?_, ?_, ?_, ?_, ?_⟩
  · intro h
    unfold requestToJoin
    rw [h]
  · intro studio hs m hm
    unfold requestToJoin
    rw [hs, hm]
  · intro studio hs hm hjt
    unfold requestToJoin
    rw [hs, hm]
    dsimp only
    simp [hjt]
  · intro studio hs hm hjt
    unfold requestToJoin
    rw [hs, hm]
    dsimp only
    simp only [hjt, ite_true, ite_false, if_true, if_false]
    simp only [DB.createMember, hm]
    simp
  · intro studio hs hm hjt r hr hst
    unfold requestToJoin
    rw [hs, hm]
    dsimp only
    simp [hjt, hr, hst]
  · intro studio hs hm hjt r hr hst
    unfold requestToJoin
    rw [hs, hm]
    dsimp only
    simp [hjt, hr, hst]
  · intro studio hs hm hjt r hr hst
    unfold requestToJoin
    rw [hs, hm]
    dsimp only
    simp only [hjt, hr, hst]
    simp only [DB.createJoinRequest, hr]
    simp
  · intro studio hs hm hjt hr
    unfold requestToJoin
    rw [hs, hm]
    dsimp only
    simp only [hjt, hr]
    simp only [DB.createJoinRequest, hr]
    simp

/-- A second copy of the stale-APPROVED-request scenario, for the C9 store
error: non-member user 2, APPROVED join request row still present. -/
def dbUniqueRace : DB :=
  { studios := [⟨3, "t", "t", .WAITLIST⟩]
    members := [⟨3, 1, .OWNER⟩]
    invites := []
    joinRequests := [⟨5, 3, 2, .APPROVED, none⟩]
    responses := []
    nextId := 6 }

/-- C9: when a membership-pathway store write fails with the uniqueness
violation (here: the fall-through join-request create on an existing row),
the error is not a ServiceError, so `sendError` surfaces a generic
500 INTERNAL_ERROR to the caller, not the typed 409 Conflict. -/
theorem uniqueViolation_surfaces_as_internal_error :
    (requestToJoin dbUniqueRace 3 2 (some "x")).1 = .error .uniqueViolation ∧
    serviceErrorOf .uniqueViolation = none ∧
    sendError .uniqueViolation = ⟨500, "INTERNAL_ERROR"⟩ ∧
    sendError .uniqueViolation ≠ ⟨409, "CONFLICT"⟩ := by
  refine ⟨rfl, rfl, rfl, ?_⟩
  intro h
  simp [sendError, serviceErrorOf] at h

/-- A WAITLIST studio where user 2 is already a member (admitted through
another pathway) while their waitlist response is still PENDING. -/
def dbPartial : DB :=
  { studios := [⟨0, "s", "s", .WAITLIST⟩]
    members := [⟨0, 1, .OWNER⟩, ⟨0, 2, .MEMBER⟩]
    invites := []
    joinRequests := []
    responses := [⟨7, 0, 2, .PENDING, [(1, "a")]⟩]
    nextId := 8 }

/-- C3 counterexample: approving the waitlist response of a user who is
already a member fails on the second store call, yet the first call has
already committed — the response row is left APPROVED while the operation
reports an error and no membership is created.  This partial state is not the
documented invite-ACCEPTED-on-Conflict case. -/
theorem reviewResponse_partial_commit :
    (reviewResponse dbPartial 7 1 .APPROVED).1 = .error .uniqueViolation ∧
    ((reviewResponse dbPartial 7 1 .APPROVED).2.findResponseById 7).map
      WaitlistResponse.status = some .APPROVED ∧
    (reviewResponse dbPartial 7 1 .APPROVED).2.members = dbPartial.members ∧
    (reviewResponse dbPartial 7 1 .APPROVED).2 ≠ dbPartial :=
  ⟨rfl, rfl, rfl, by decide⟩

theorem approveRequest_error_unchanged (db : DB) (s rid aid : Nat) (e : Err) :
    (approveRequest db s rid aid).1 = .error e →
    (approveRequest db s rid aid).2 = db := by
  unfold approveRequest
  dsimp only
  split
  · intro _; rfl
  split
  · intro _; rfl
  split
  · intro _; rfl
  split
  · intro _; rfl
  split
  · intro _; rfl
  · intro h
    exact absurd h (by simp)

theorem respondToInvite_error_unchanged (db : DB) (iid u : Nat) (accept : Bool)
    (e : Err) :
    (respondToInvite db iid u accept).1 = .error e → e ≠ .conflict →
    (respondToInvite db iid u accept).2 = db := by
  unfold respondToInvite
  dsimp only
  split
  · intro _ _; rfl
  split
  · intro _ _; rfl
  split
  · intro _ _; rfl
  split
  · split
    · intro h hne
      exact absurd (Except.error.inj h).symm hne
    · split
      · intro _ _; rfl
      · intro h _
        exact absurd h (by simp)
  · intro h _
    exact absurd h (by simp)

/-- A store in which the next fresh studio id would collide with an existing
membership pair for user 1 — the OWNER-membership insert of createStudio can
then fail after the studio row is already committed. -/
def dbOwnerClash : DB :=
  { studios := []
    members := [⟨0, 1, .OWNER⟩]
    invites := []
    joinRequests := []
    responses := []
    nextId := 0 }

/-- C3 (amended): join-request approval and invite response are atomic — on
any error the store is unchanged, except the documented invite-marked-
ACCEPTED-on-Conflict case.  Waitlist approval and studio creation are NOT
atomic: their two store writes are separate calls, so a failure of the second
write leaves the first committed (an APPROVED response with no membership; a
studio row with no OWNER membership). -/
theorem atomicity_contract :
    (∀ db s rid aid e, (approveRequest db s rid aid).1 = .error e →
      (approveRequest db s rid aid).2 = db) ∧
    (∀ db iid u accept e, (respondToInvite db iid u accept).1 = .error e →
      e ≠ .conflict → (respondToInvite db iid u accept).2 = db) ∧
    ((reviewResponse dbPartial 7 1 .APPROVED).1 = .error .uniqueViolation ∧
      ((reviewResponse dbPartial 7 1 .APPROVED).2.findResponseById 7).map
        WaitlistResponse.status = some .APPROVED ∧
      (reviewResponse dbPartial 7 1 .APPROVED).2.members = dbPartial.members) ∧
    ((createStudio dbOwnerClash 1 "n" "t" none).1 = .error .uniqueViolation ∧
      (createStudio dbOwnerClash 1 "n" "t" none).2.studios ≠ dbOwnerClash.studios) := by
  refine ⟨approveRequest_error_unchanged, respondToInvite_error_unchanged,
    ⟨rfl, rfl, rfl⟩, rfl, ?_⟩
  decide

/-- C5: a MODERATOR actor may not invite as MODERATOR, may not remove an
OWNER or MODERATOR member, and may not change any member's role: each attempt
fails Forbidden and leaves the store unchanged. -/
theorem moderator_restrictions (db : DB) (s target caller : Nat) (r : StudioRole)
    (hmod : getMemberRole db s caller = some .MODERATOR) :
    inviteUser db s caller target (some .MODERATOR) = (.error .forbidden, db) ∧
    (∀ m, db.findMember s target = some m → (m.role = .OWNER ∨ m.role = .MODERATOR) →
      removeMember db s target caller = (.error .forbidden, db)) ∧
    updateMemberRole db s target r caller = (.error .forbidden, db) := by
  refine ⟨?_, ?_, ?_⟩
  · unfold inviteUser
    dsimp only
    rw [hmod]
    simp
  · intro m hm hrole
    unfold removeMember
    dsimp only
    rw [hmod, hm]
    rcases hrole with h | h <;> simp [h]
  · unfold updateMemberRole
    dsimp only
    rw [hmod]
    simp

/-- A studio with an OWNER (1), a MODERATOR (3) and a MEMBER (2). -/
def dbRoles : DB :=
  { studios := [⟨0, "s", "s", .OPEN⟩]
    members := [⟨0, 1, .OWNER⟩, ⟨0, 2, .MEMBER⟩, ⟨0, 3, .MODERATOR⟩]
    invites := []
    joinRequests := []
    responses := []
    nextId := 4 }

/-- C5 witness: at the concrete store dbRoles, the moderator (user 3) is
blocked on all three actions. -/
theorem moderator_restrictions_witness :
    inviteUser dbRoles 0 3 9 (some .MODERATOR) = (.error .forbidden, dbRoles) ∧
    (∀ m, dbRoles.findMember 0 1 = some m → (m.role = .OWNER ∨ m.role = .MODERATOR) →
      removeMember dbRoles 0 1 3 = (.error .forbidden, dbRoles)) ∧
    updateMemberRole dbRoles 0 2 .MODERATOR 3 = (.error .forbidden, dbRoles) :=
  moderator_restrictions dbRoles 0 1 3 .MODERATOR (by decide) |>.imp id
    (fun h => ⟨h.1, (moderator_restrictions dbRoles 0 2 3 .MODERATOR (by decide)).2.2⟩)

/-- C6 counterexample: a plain MEMBER (user 2) changing their own role fails
Forbidden — the OWNER-only check fires before the self-check — not BadRequest
as the claim states for callers of every role. -/
theorem change_own_role_not_badRequest :
    updateMemberRole dbRoles 0 2 .MEMBER 2 = (.error .forbidden, dbRoles) ∧
    Err.forbidden ≠ Err.badRequest :=
  ⟨rfl, by decide⟩

/-- C6 (amended): an OWNER calling removeMember on themselves fails
BadRequest, an OWNER calling leaveStudio fails BadRequest, and an OWNER
calling updateMemberRole on their own membership fails BadRequest; a
non-OWNER caller of updateMemberRole fails Forbidden before the self-check is
reached.  In each case the store is unchanged. -/
theorem self_restriction_contract (db : DB) (s u : Nat) (r : StudioRole) :
    (getMemberRole db s u = some .OWNER →
      removeMember db s u u = (.error .badRequest, db) ∧
      leaveStudio db s u = (.error .badRequest, db) ∧
      updateMemberRole db s u r u = (.error .badRequest, db)) ∧
    (∀ c, getMemberRole db s c ≠ some .OWNER →
      updateMemberRole db s u r c = (.error .forbidden, db)) := by
  constructor
  · intro howner
    obtain ⟨m, hm, hrole⟩ : ∃ m, db.findMember s u = some m ∧ m.role = .OWNER := by
      unfold getMemberRole at howner
      cases hf : db.findMember s u with
      | none => rw [hf] at howner; exact absurd howner (by simp)
      | some m =>
        rw [hf] at howner
        exact ⟨m, rfl, by simpa using howner⟩
    refine ⟨?_, ?_, ?_⟩
    · unfold removeMember
      dsimp only
      rw [howner, hm]
      simp [hrole]
    · unfold leaveStudio
      rw [hm]
      simp [hrole]
    · unfold updateMemberRole
      dsimp only
      rw [howner, hm]
      simp
  · intro c hc
    unfold updateMemberRole
    dsimp only
    simp [hc]

/-- An INVITE_ONLY studio whose invite to user 2 was ACCEPTED, after which
user 2 left the studio: the ACCEPTED invite row remains. -/
def dbAcceptedInvite : DB :=
  { studios := [⟨0, "s", "s", .INVITE_ONLY⟩]
    members := [⟨0, 1, .OWNER⟩]
    invites := [⟨10, 0, 2, .ACCEPTED, .MEMBER⟩]
    joinRequests := []
    responses := []
    nextId := 11 }

/-- C7: at dbAcceptedInvite the invite for (0, 2) is ACCEPTED, yet re-inviting
user 2 resets that same row to PENDING — ACCEPTED is not terminal.  The code
takes the update branch for every non-PENDING status, contradicting its own
comment (update only "if previously rejected") and the spec's state machine. -/
theorem accepted_invite_reset_on_reinvite :
    (dbAcceptedInvite.findInviteById 10).map Invite.status = some .ACCEPTED ∧
    (inviteUser dbAcceptedInvite 0 1 2 none).1 = .ok ⟨10, 0, 2, .PENDING, .MEMBER⟩ ∧
    ((inviteUser dbAcceptedInvite 0 1 2 none).2.findInviteById 10).map
      Invite.status = some .PENDING ∧
    InviteStatus.PENDING ≠ InviteStatus.ACCEPTED :=
  ⟨rfl, rfl, rfl, by decide⟩

/-- C8: accepting a PENDING invite while already a member marks the invite
ACCEPTED, fails with Conflict, and creates no second membership record. -/
theorem accept_already_member (db : DB) (iid u : Nat) :
    ∀ inv, db.findInviteById iid = some inv → inv.userId = u →
    inv.status = .PENDING → ∀ m, db.findMember inv.studioId u = some m →
    respondToInvite db iid u true =
      (.error .conflict, db.replaceInvite { inv with status := .ACCEPTED }) ∧
    (db.replaceInvite { inv with status := .ACCEPTED }).members = db.members ∧
    { inv with status := InviteStatus.ACCEPTED } ∈
      (db.replaceInvite { inv with status := .ACCEPTED }).invites := by
  intro inv h he hst m hm
  subst he
  refine ⟨?_, rfl, ?_⟩
  · unfold respondToInvite
    rw [h]
    dsimp only
    simp [hst, hm]
  · have hin : inv ∈ db.invites := List.mem_of_find?_eq_some h
    exact List.mem_map.mpr ⟨inv, hin, by simp⟩

/-- A store for the C8 witness: PENDING invite for (0, 2) while user 2 is
already a member of studio 0. -/
def dbRace : DB :=
  { studios := [⟨0, "s", "s", .INVITE_ONLY⟩]
    members := [⟨0, 1, .OWNER⟩, ⟨0, 2, .MEMBER⟩]
    invites := [⟨10, 0, 2, .PENDING, .MEMBER⟩]
    joinRequests := []
    responses := []
    nextId := 11 }

/-- C8 witness at the concrete store dbRace. -/
theorem accept_already_member_witness :
    respondToInvite dbRace 10 2 true =
      (.error .conflict, dbRace.replaceInvite ⟨10, 0, 2, .ACCEPTED, .MEMBER⟩) ∧
    (dbRace.replaceInvite ⟨10, 0, 2, .ACCEPTED, .MEMBER⟩).members = dbRace.members ∧
    (⟨10, 0, 2, .ACCEPTED, .MEMBER⟩ : Invite) ∈
      (dbRace.replaceInvite ⟨10, 0, 2, .ACCEPTED, .MEMBER⟩).invites :=
  accept_already_member dbRace 10 2 ⟨10, 0, 2, .PENDING, .MEMBER⟩ rfl rfl rfl
    ⟨0, 2, .MEMBER⟩ rfl

/-- C10 counterexample: the MODERATOR (user 3) attempting to promote member 2
to OWNER fails Forbidden — the OWNER-only gate fires first — not BadRequest
as the claim states for every caller. -/
theorem promote_to_owner_not_badRequest_for_moderator :
    updateMemberRole dbRoles 0 2 .OWNER 3 = (.error .forbidden, dbRoles) ∧
    Err.forbidden ≠ Err.badRequest :=
  ⟨rfl, by decide⟩

/-- C10 (amended): updateMemberRole with target role OWNER never succeeds and
never modifies the store: an OWNER caller targeting another existing member
gets BadRequest, a non-OWNER caller gets Forbidden, and in every case the
result is an error with the store unchanged. -/
theorem no_owner_promotion (db : DB) (s u c : Nat) :
    (∀ res, (updateMemberRole db s u .OWNER c).1 ≠ .ok res) ∧
    (updateMemberRole db s u .OWNER c).2 = db ∧
    (getMemberRole db s c = some .OWNER → ∀ m, db.findMember s u = some m →
      u ≠ c → updateMemberRole db s u .OWNER c = (.error .badRequest, db)) ∧
    (getMemberRole db s c ≠ some .OWNER →
      updateMemberRole db s u .OWNER c = (.error .forbidden, db)) := by
  refine ⟨?_, ?_, ?_, ?_⟩
  · intro res
    unfold updateMemberRole
    dsimp only
    split
    · simp
    split
    · simp
    split
    · simp
    · split
      · simp
      · simp_all
  · unfold updateMemberRole
    dsimp only
    split
    · rfl
    split
    · rfl
    split
    · rfl
    · split
      · rfl
      · simp_all
  · intro howner m hm hne
    unfold updateMemberRole
    dsimp only
    rw [howner, hm]
    simp [hne]
  · intro hc
    unfold updateMemberRole
    dsimp only
    simp [hc]
